import Mathlib

/-!
A shallow embedding of `run_docker.py` (the single source file of the
Archon repository) and proofs of the specification claims about it.

The script is a straight-line sequence of shell-outs to the `docker` CLI
plus a few filesystem / socket probes.  We model every interaction with
the outside world by a `World` record that fixes, once and for all, the
outcome the environment would give to each of the script's external
queries (exit codes, captured stdout, port occupancy, existence of the
`.env` entry).  The script itself is then a pure function
`main : World → Int × List Event` returning the process exit code
(`return` value of the Python `main`, passed to `exit`) together with
the ordered trace of externally visible events: attempted subprocess
invocations (`Event.exec`, with argv and optional working directory)
and lines printed by the script itself (`Event.print`).

Unmodelled I/O details, none of which any claim depends on: the
byte-level child output that `run_command` streams back to the console,
and the fixed `time.sleep(2)` pause after the run step.
-/

namespace Archon

/-- Type of a filesystem entry: `Path.exists()` in the source is true for
both regular files and directories. -/
inductive FsType where
  | file : FsType
  | dir : FsType
deriving DecidableEq

/-- The outcome the external environment gives to each of the script's
queries.  Exit codes are the integer return codes of the corresponding
subprocesses; a `FileNotFoundError` from launching a missing `docker`
binary is modelled by `dockerBinaryPresent = false`. -/
structure World where
  /-- The `docker` binary can be launched at all (otherwise every
  `subprocess` call raises `FileNotFoundError`). -/
  dockerBinaryPresent : Bool
  /-- Exit code of `docker --version` (in `check_docker`). -/
  versionExit : Int
  /-- Exit code of `docker info` run by `check_docker`. -/
  infoCheckExit : Int
  /-- `platform.system() == "Windows"`. -/
  isWindows : Bool
  /-- Exit code of the `docker info` run by
  `detect_windows_docker_environment`. -/
  infoDetectExit : Int
  /-- Captured stdout of that `docker info`. -/
  infoDetectStdout : String
  /-- `True` iff `connect_ex(("localhost", port)) == 0`, i.e. a TCP
  connect to the port succeeds because something is listening. -/
  portOccupied : Nat → Bool
  /-- The filesystem entry named `.env` beside the script, if any;
  `Path.exists()` is modelled by `Option.isSome`. -/
  envEntry : Option FsType
  /-- `str(base_dir / ".env")`. -/
  envFilePath : String
  /-- `str(base_dir / "mcp")`, the cwd of the first build. -/
  mcpDir : String
  /-- `str(base_dir)`, the cwd of the second build. -/
  baseDir : String
  /-- Exit code of `docker build -t archon-mcp:latest .`. -/
  buildMcpExit : Int
  /-- Exit code of `docker build -t archon:latest .`. -/
  buildMainExit : Int
  /-- Exit code of `docker ps -q --filter name=archon-container`. -/
  psExit : Int
  /-- Captured stdout of that `docker ps`. -/
  psStdout : String
  /-- Exit code of `docker stop archon-container`. -/
  stopExit : Int
  /-- Exit code of `docker rm archon-container`. -/
  rmExit : Int
  /-- Exit code of `docker run -d --name archon-container ...`. -/
  runExit : Int

/-- An externally visible step of the script: an attempted subprocess
invocation (argv plus optional working directory), or a line printed by
the script itself. -/
inductive Event where
  | exec : List String → Option String → Event
  | print : String → Event
deriving DecidableEq

/-- Python's default whitespace set for `str.strip()`. -/
def isPySpace (c : Char) : Bool :=
  c == ' ' || c == '\t' || c == '\n' || c == '\r' || c == '\x0b' || c == '\x0c'

/-- Python's `str.strip()`. -/
def pyStrip (s : String) : String :=
  ⟨((s.data.dropWhile isPySpace).reverse.dropWhile isPySpace).reverse⟩

/-- Python's `str.lower()` (over the ASCII range the script scans for). -/
def pyLower (s : String) : String :=
  ⟨s.data.map Char.toLower⟩

/-- Predicate `charsStartWith pat s` is true iff `pat` is an initial segment of `s`. -/
def charsStartWith : List Char → List Char → Bool
  | [], _ => true
  | _ :: _, [] => false
  | p :: ps, c :: cs => p == c && charsStartWith ps cs

/-- Predicate `charsContain pat s` is true iff `pat` occurs contiguously in `s`. -/
def charsContain (pat : List Char) : List Char → Bool
  | [] => charsStartWith pat []
  | c :: cs => charsStartWith pat (c :: cs) || charsContain pat cs

/-- Python's `pat in s` substring test. -/
def strContains (s pat : String) : Bool :=
  charsContain pat.data s.data

/-- Python's `repr` of a list of ints, as interpolated by the f-string
`f"...already in use: {unavailable_ports}"`. -/
def pyListRepr (l : List Nat) : String :=
  "[" ++ String.intercalate ", " (l.map toString) ++ "]"

/-- Model of `run_command` (source lines 13-32): prints the command line, launches
the process forwarding its output, waits, and returns the exit code.
The exit code the environment would give is passed in by the caller
(it is one of the `World` fields). -/
def run_command (argv : List String) (cwd : Option String) (code : Int) :
    Int × List Event :=
  (code, [Event.print ("Running: " ++ String.intercalate " " argv),
          Event.exec argv cwd])

/-- Model of `check_docker` (source lines 34-57): `docker --version` then
`docker info`, both with `check=True`; `FileNotFoundError` (missing
binary) and `SubprocessError` (non-zero exit) each print a distinct
error and yield `False`. -/
def check_docker (w : World) : Bool × List Event :=
  if w.dockerBinaryPresent = false then
    (false, [Event.exec ["docker", "--version"] none,
             Event.print "Error: Docker is not installed or not in PATH"])
  else if w.versionExit ≠ 0 then
    (false, [Event.exec ["docker", "--version"] none,
             Event.print "Error: Docker is not running. Please start Docker Desktop or Docker service."])
  else if w.infoCheckExit ≠ 0 then
    (false, [Event.exec ["docker", "--version"] none,
             Event.exec ["docker", "info"] none,
             Event.print "Error: Docker is not running. Please start Docker Desktop or Docker service."])
  else
    (true, [Event.exec ["docker", "--version"] none,
            Event.exec ["docker", "info"] none])

/-- Model of `detect_windows_docker_environment` (source lines 59-83): non-Windows
short-circuits to `"standard"`; on Windows a `docker info` is attempted
and any failure (bare `except:`) defaults to `"docker-desktop"`;
otherwise the lowercased stdout is scanned for the WSL/Microsoft and
VirtualBox/Docker-Machine substrings, defaulting to `"docker-desktop"`. -/
def detect_windows_docker_environment (w : World) : String × List Event :=
  if w.isWindows = false then
    ("standard", [])
  else
    let ev := [Event.exec ["docker", "info"] none]
    if w.dockerBinaryPresent = false then
      ("docker-desktop", ev)
    else if w.infoDetectExit ≠ 0 then
      ("docker-desktop", ev)
    else
      let out := pyLower w.infoDetectStdout
      if strContains out "wsl" || strContains out "microsoft" then
        ("docker-desktop", ev)
      else if strContains out "virtualbox" || strContains out "docker machine" then
        ("docker-toolbox", ev)
      else
        ("docker-desktop", ev)

/-- Model of `is_port_available` (source lines 85-88): true iff the TCP connect
fails, i.e. nothing is listening. -/
def is_port_available (w : World) (port : Nat) : Bool :=
  !(w.portOccupied port)

/-- The list `required_ports` (source line 101). -/
def required_ports : List Nat := [8501, 8100]

/-- Model of `env_file.exists()` (source line 114): existence of any entry. -/
def envExists (w : World) : Bool :=
  w.envEntry.isSome

/-- The list `env_args` (source lines 113-116). -/
def envArgs (w : World) : List String :=
  if envExists w then ["--env-file", w.envFilePath] else []

/-- The stale-instance replacement step (source lines 133-146):
`docker ps -q --filter name=archon-container` with `check=True`; a
non-zero exit raises `SubprocessError` which the `except` swallows; on
success a non-empty stripped stdout triggers `docker stop` and
`docker rm` (whose exit codes are ignored). -/
def staleEvents (w : World) : List Event :=
  [Event.exec ["docker", "ps", "-q", "--filter", "name=archon-container"] none]
  ++ (if w.psExit = 0 then
        (if pyStrip w.psStdout = "" then []
         else
           [Event.print "\n=== Stopping existing Archon container ==="]
           ++ (run_command ["docker", "stop", "archon-container"] none w.stopExit).2
           ++ (run_command ["docker", "rm", "archon-container"] none w.rmExit).2)
      else [])

/-- The `docker run` argv (source lines 150-169): fixed prefix, then the
host-gateway alias flag exactly when the detected environment is
docker-desktop, then the env-file arguments when present, then the
image name. -/
def runCmdArgs (docker_env : String) (env_args : List String) : List String :=
  ["docker", "run", "-d", "--name", "archon-container",
   "-p", "8501:8501", "-p", "8100:8100"]
  ++ (if docker_env = "docker-desktop" then
        ["--add-host", "host.docker.internal:host-gateway"]
      else [])
  ++ env_args
  ++ ["archon:latest"]

/-- The fixed success-message block (source lines 179-191). -/
def postRunEvents (docker_env : String) : List Event :=
  [Event.print "\n=== Archon is now running! ==="]
  ++ (if docker_env = "docker-toolbox" then
        [Event.print "-> Using Docker Toolbox:",
         Event.print "   To access the Streamlit UI, you need to use the Docker VM's IP address.",
         Event.print "   Run 'docker-machine ip default' to get this IP, then access:",
         Event.print "   http://<docker-machine-ip>:8501"]
      else
        [Event.print "-> Access the Streamlit UI at: http://localhost:8501"])
  ++ [Event.print "-> MCP container is ready to use - see the MCP tab in the UI.",
      Event.print "\nTo stop Archon, run: docker stop archon-container && docker rm archon-container"]

/-- Body of `main` from the port check on (source lines 100-193),
parameterised by the already-detected environment string. -/
def main_after_detect (w : World) (docker_env : String) : Int × List Event :=
  let ev0 := [Event.print ("Detected Docker environment: " ++ docker_env)]
  let unavailable_ports :=
    required_ports.filter (fun port => !(is_port_available w port))
  if unavailable_ports ≠ [] then
    (1, ev0
        ++ [Event.print ("Error: The following ports are already in use: "
              ++ pyListRepr unavailable_ports),
            Event.print "Please stop the services using these ports or modify the port mappings."])
  else
    let env_args := envArgs w
    let ev1 := ev0
      ++ (if envExists w then
            [Event.print ("Using environment file: " ++ w.envFilePath)]
          else
            [Event.print "No .env file found. Continuing without environment variables."])
    let ev2 := ev1 ++ [Event.print "\n=== Building Archon MCP container ==="]
    let b1 := run_command ["docker", "build", "-t", "archon-mcp:latest", "."]
      (some w.mcpDir) w.buildMcpExit
    if b1.1 ≠ 0 then
      (1, ev2 ++ b1.2 ++ [Event.print "Error building MCP container"])
    else
      let ev3 := ev2 ++ b1.2
        ++ [Event.print "\n=== Building main Archon container ==="]
      let b2 := run_command ["docker", "build", "-t", "archon:latest", "."]
        (some w.baseDir) w.buildMainExit
      if b2.1 ≠ 0 then
        (1, ev3 ++ b2.2 ++ [Event.print "Error building main Archon container"])
      else
        let ev4 := ev3 ++ b2.2 ++ staleEvents w
        let ev5 := ev4 ++ [Event.print "\n=== Starting Archon container ==="]
          ++ (if docker_env = "docker-toolbox" then
                [Event.print "Note: For Docker Toolbox, you may need to use the VM's IP address instead of localhost"]
              else [])
        let r := run_command (runCmdArgs docker_env env_args) none w.runExit
        if r.1 ≠ 0 then
          (1, ev5 ++ r.2 ++ [Event.print "Error starting Archon container"])
        else
          (0, ev5 ++ r.2 ++ postRunEvents docker_env)

/-- Model of `main` (source lines 90-193), composed with `exit(main())`: the
returned integer is the process exit code. -/
def main (w : World) : Int × List Event :=
  let c := check_docker w
  if c.1 = false then
    (1, c.2)
  else
    let d := detect_windows_docker_environment w
    let r := main_after_detect w d.1
    (r.1, c.2 ++ d.2 ++ r.2)

/-- The argv lists of the subprocess invocations of a trace, in order. -/
def execArgvs (t : List Event) : List (List String) :=
  t.filterMap (fun e =>
    match e with
    | Event.exec a _ => some a
    | Event.print _ => none)

/-- The invocation is a `docker build`. -/
def isBuildArgv (a : List String) : Bool :=
  a.take 2 == ["docker", "build"]

/-- The invocation is a `docker stop`. -/
def isStopArgv (a : List String) : Bool :=
  a.take 2 == ["docker", "stop"]

/-- The invocation is a `docker rm`. -/
def isRmArgv (a : List String) : Bool :=
  a.take 2 == ["docker", "rm"]

/-- The invocation is a `docker run`. -/
def isRunArgv (a : List String) : Bool :=
  a.take 2 == ["docker", "run"]

/-- Predicate `argPairIn x y l` is true iff `x` immediately followed by `y` occurs
in `l`: the two-token flag `x y` is part of the command line. -/
def argPairIn (x y : String) : List String → Bool
  | [] => false
  | [_] => false
  | a :: b :: rest => (a == x && b == y) || argPairIn x y (b :: rest)

/-- Engine present and daemon reachable: both `check_docker` probes exit 0. -/
def EngineOk (w : World) : Prop :=
  w.dockerBinaryPresent = true ∧ w.versionExit = 0 ∧ w.infoCheckExit = 0

/-- Both required ports are free (no listener accepts the probe connect). -/
def PortsFree (w : World) : Prop :=
  w.portOccupied 8501 = false ∧ w.portOccupied 8100 = false

/-- Both image builds exit 0. -/
def BuildsOk (w : World) : Prop :=
  w.buildMcpExit = 0 ∧ w.buildMainExit = 0

/-- The events of a successful `check_docker`. -/
def checkOkEvents : List Event :=
  [Event.exec ["docker", "--version"] none, Event.exec ["docker", "info"] none]

/-- The events of `detect_windows_docker_environment`: a `docker info`
attempt exactly on Windows. -/
def detectEvents (w : World) : List Event :=
  if w.isWindows then [Event.exec ["docker", "info"] none] else []

/-- The detected environment string. -/
def detectEnv (w : World) : String :=
  (detect_windows_docker_environment w).1

/-- The events of the `.env` discovery step. -/
def envPhaseEvents (w : World) : List Event :=
  if envExists w then
    [Event.print ("Using environment file: " ++ w.envFilePath)]
  else
    [Event.print "No .env file found. Continuing without environment variables."]

/-- The events of the two (successful) build steps. -/
def buildEvents (w : World) : List Event :=
  [Event.print "\n=== Building Archon MCP container ==="]
  ++ (run_command ["docker", "build", "-t", "archon-mcp:latest", "."]
        (some w.mcpDir) w.buildMcpExit).2
  ++ [Event.print "\n=== Building main Archon container ==="]
  ++ (run_command ["docker", "build", "-t", "archon:latest", "."]
        (some w.baseDir) w.buildMainExit).2

/-- Everything the script does before the `docker run`, on a run where
the engine check, port check and both builds succeed. -/
def preRunEvents (w : World) : List Event :=
  checkOkEvents ++ detectEvents w
  ++ [Event.print ("Detected Docker environment: " ++ detectEnv w)]
  ++ envPhaseEvents w ++ buildEvents w ++ staleEvents w
  ++ [Event.print "\n=== Starting Archon container ==="]
  ++ (if detectEnv w = "docker-toolbox" then
        [Event.print "Note: For Docker Toolbox, you may need to use the VM's IP address instead of localhost"]
      else [])

/-- The events of the `docker run` step itself. -/
def runEvents (w : World) : List Event :=
  (run_command (runCmdArgs (detectEnv w) (envArgs w)) none w.runExit).2

/-- What follows the `docker run`: the success block, or the error line. -/
def tailEvents (w : World) : List Event :=
  if w.runExit = 0 then postRunEvents (detectEnv w)
  else [Event.print "Error starting Archon container"]

/-- The six error lines the script can print on its fatal paths (the
port-conflict one depends on which ports were found occupied). -/
def errorMessages (w : World) : List String :=
  ["Error: Docker is not installed or not in PATH",
   "Error: Docker is not running. Please start Docker Desktop or Docker service.",
   "Error: The following ports are already in use: "
     ++ pyListRepr (required_ports.filter (fun port => !(is_port_available w port))),
   "Error building MCP container",
   "Error building main Archon container",
   "Error starting Archon container"]

/-- Hypotheses of claim C1 exactly as stated: engine present and daemon
reachable, both required ports free, no `.env` beside the script, both
builds exit 0. -/
def C1Hyp (w : World) : Prop :=
  EngineOk w ∧ PortsFree w ∧ w.envEntry = none ∧ BuildsOk w

/-- Conclusion of claim C1 exactly as stated: exit code 0, exactly two
build invocations, zero stop/remove invocations, one run invocation,
and no environment-file argument in the run invocation. -/
def C1Spec (w : World) : Prop :=
  (main w).1 = 0
  ∧ (execArgvs (main w).2).countP isBuildArgv = 2
  ∧ (execArgvs (main w).2).countP (fun a => isStopArgv a || isRmArgv a) = 0
  ∧ (execArgvs (main w).2).countP isRunArgv = 1
  ∧ ∀ a ∈ (execArgvs (main w).2).filter isRunArgv, "--env-file" ∉ a

/-- All `World` fields except the three that only
`detect_windows_docker_environment` reads (`isWindows`,
`infoDetectExit`, `infoDetectStdout`) agree. -/
def NonDetectEq (w1 w2 : World) : Prop :=
  w1.dockerBinaryPresent = w2.dockerBinaryPresent
  ∧ w1.versionExit = w2.versionExit
  ∧ w1.infoCheckExit = w2.infoCheckExit
  ∧ w1.portOccupied = w2.portOccupied
  ∧ w1.envEntry = w2.envEntry
  ∧ w1.envFilePath = w2.envFilePath
  ∧ w1.mcpDir = w2.mcpDir
  ∧ w1.baseDir = w2.baseDir
  ∧ w1.buildMcpExit = w2.buildMcpExit
  ∧ w1.buildMainExit = w2.buildMainExit
  ∧ w1.psExit = w2.psExit
  ∧ w1.psStdout = w2.psStdout
  ∧ w1.stopExit = w2.stopExit
  ∧ w1.rmExit = w2.rmExit
  ∧ w1.runExit = w2.runExit

/-- Drop the two tokens of the host-gateway alias flag from an argv. -/
def stripAddHost (a : List String) : List String :=
  a.filter (fun s => !(s == "--add-host" || s == "host.docker.internal:host-gateway"))

/-- Build/stop/remove/run invocations of a trace, host-gateway alias flag
erased. -/
def coreArgvs (t : List Event) : List (List String) :=
  ((execArgvs t).filter
      (fun a => isBuildArgv a || isStopArgv a || isRmArgv a || isRunArgv a)).map
    stripAddHost

/-- Build/stop/remove invocations of a trace. -/
def bsrArgvs (t : List Event) : List (List String) :=
  (execArgvs t).filter (fun a => isBuildArgv a || isStopArgv a || isRmArgv a)

/-- Stop/remove/run invocations of a trace. -/
def srrArgvs (t : List Event) : List (List String) :=
  (execArgvs t).filter (fun a => isStopArgv a || isRmArgv a || isRunArgv a)

/-- A clean world: engine up, non-Windows, both ports free, no `.env`,
both builds succeed, no stale container, run succeeds. -/
def wOk : World :=
  ⟨true, 0, 0, false, 0, "", fun _ => false, none,
   "/archon/.env", "/archon/mcp", "/archon", 0, 0, 0, "", 0, 0, 0⟩

/-- Like `wOk` but the container-list query reports a stale container
and the `docker run` fails. -/
def wStaleRunFail : World :=
  ⟨true, 0, 0, false, 0, "", fun _ => false, none,
   "/archon/.env", "/archon/mcp", "/archon", 0, 0, 0, "c0ffee\n", 0, 0, 1⟩

/-- Like `wOk` but the `.env` entry beside the script is a directory. -/
def wDirEnv : World :=
  ⟨true, 0, 0, false, 0, "", fun _ => false, some FsType.dir,
   "/archon/.env", "/archon/mcp", "/archon", 0, 0, 0, "", 0, 0, 0⟩

/-- Like `wOk` but port 8100 has a listener. -/
def wPortBusy : World :=
  ⟨true, 0, 0, false, 0, "", fun p => p == 8100, none,
   "/archon/.env", "/archon/mcp", "/archon", 0, 0, 0, "", 0, 0, 0⟩

/-- The `docker` binary is absent. -/
def wNoEngine : World :=
  ⟨false, 0, 0, false, 0, "", fun _ => false, none,
   "/archon/.env", "/archon/mcp", "/archon", 0, 0, 0, "", 0, 0, 0⟩

/-- Like `wOk` but Windows, with daemon info mentioning WSL. -/
def wWinWsl : World :=
  ⟨true, 0, 0, true, 0, "OS: WSL Microsoft kernel", fun _ => false, none,
   "/archon/.env", "/archon/mcp", "/archon", 0, 0, 0, "", 0, 0, 0⟩

/-- Like `wOk` but Windows, with daemon info mentioning VirtualBox. -/
def wWinVbox : World :=
  ⟨true, 0, 0, true, 0, "Provider: VirtualBox", fun _ => false, none,
   "/archon/.env", "/archon/mcp", "/archon", 0, 0, 0, "", 0, 0, 0⟩

/-- Like `wOk` but Windows, with the detection `docker info` failing. -/
def wWinFail : World :=
  ⟨true, 0, 0, true, 1, "", fun _ => false, none,
   "/archon/.env", "/archon/mcp", "/archon", 0, 0, 0, "", 0, 0, 0⟩

theorem check_docker_ok (w : World) (h : EngineOk w) :
    check_docker w = (true, checkOkEvents) := by
  obtain ⟨h1, h2, h3⟩ := h
  simp [check_docker, checkOkEvents, h1, h2, h3]

theorem detect_snd (w : World) :
    (detect_windows_docker_environment w).2 = detectEvents w := by
  unfold detect_windows_docker_environment detectEvents
  rcases hw : w.isWindows
  · simp [hw]
  · simp only [hw, Bool.true_eq_false, if_false, if_true]
    split_ifs <;> rfl

theorem detectEnv_cases (w : World) :
    detectEnv w = "standard" ∨ detectEnv w = "docker-desktop"
      ∨ detectEnv w = "docker-toolbox" := by
  unfold detectEnv detect_windows_docker_environment
  by_cases hw : w.isWindows = false
  · simp [hw]
  · by_cases hb : w.dockerBinaryPresent = false
    · simp [hw, hb]
    · by_cases he : w.infoDetectExit ≠ 0
      · simp [hw, hb, he]
      · by_cases h5 : (strContains (pyLower w.infoDetectStdout) "wsl"
            || strContains (pyLower w.infoDetectStdout) "microsoft") = true
        · simp [hw, hb, he, h5]
        · by_cases h6 : (strContains (pyLower w.infoDetectStdout) "virtualbox"
              || strContains (pyLower w.infoDetectStdout) "docker machine") = true
          · simp [hw, hb, he, h5, h6]
          · simp [hw, hb, he, h5, h6]

theorem main_normal (w : World) (hE : EngineOk w) (hP : PortsFree w)
    (hB : BuildsOk w) :
    main w = (if w.runExit = 0 then (0 : Int) else 1,
              preRunEvents w ++ runEvents w ++ tailEvents w) := by
  obtain ⟨p1, p2⟩ := hP
  obtain ⟨b1, b2⟩ := hB
  have hc := check_docker_ok w hE
  have hd := detect_snd w
  by_cases hr : w.runExit = 0 <;>
    simp [main, main_after_detect, hc, hd, required_ports, is_port_available,
      p1, p2, b1, b2, run_command, hr, preRunEvents, runEvents, tailEvents,
      buildEvents, envPhaseEvents, checkOkEvents, detectEnv, List.append_assoc]

theorem execArgvs_append (s t : List Event) :
    execArgvs (s ++ t) = execArgvs s ++ execArgvs t := by
  simp [execArgvs]

theorem execArgvs_ite (c : Prop) [Decidable c] (a b : List Event) :
    execArgvs (if c then a else b) = if c then execArgvs a else execArgvs b :=
  apply_ite execArgvs c a b

theorem mem_execArgvs_of_exec (t : List Event) (a : List String)
    (c : Option String) (h : Event.exec a c ∈ t) : a ∈ execArgvs t := by
  simp only [execArgvs, List.mem_filterMap]
  exact ⟨Event.exec a c, h, rfl⟩

theorem execArgvs_detectEvents (w : World) :
    execArgvs (detectEvents w)
      = if w.isWindows then [["docker", "info"]] else [] := by
  unfold detectEvents
  split_ifs <;> simp [execArgvs]

theorem execArgvs_envPhase (w : World) : execArgvs (envPhaseEvents w) = [] := by
  unfold envPhaseEvents
  split_ifs <;> simp [execArgvs]

theorem execArgvs_buildEvents (w : World) :
    execArgvs (buildEvents w) =
      [["docker", "build", "-t", "archon-mcp:latest", "."],
       ["docker", "build", "-t", "archon:latest", "."]] := by
  simp [buildEvents, run_command, execArgvs]

theorem execArgvs_staleEvents (w : World) :
    execArgvs (staleEvents w) =
      ["docker", "ps", "-q", "--filter", "name=archon-container"]
      :: (if w.psExit = 0 then
            (if pyStrip w.psStdout = "" then []
             else [["docker", "stop", "archon-container"],
                   ["docker", "rm", "archon-container"]])
          else []) := by
  unfold staleEvents
  split_ifs <;> simp [execArgvs, run_command]

theorem execArgvs_runEvents (w : World) :
    execArgvs (runEvents w) = [runCmdArgs (detectEnv w) (envArgs w)] := by
  simp [runEvents, run_command, execArgvs]

theorem execArgvs_tailEvents (w : World) : execArgvs (tailEvents w) = [] := by
  unfold tailEvents postRunEvents
  split_ifs <;> simp [execArgvs]

theorem execArgvs_preRun (w : World) :
    execArgvs (preRunEvents w) =
      [["docker", "--version"], ["docker", "info"]]
      ++ (if w.isWindows then [["docker", "info"]] else [])
      ++ [["docker", "build", "-t", "archon-mcp:latest", "."],
          ["docker", "build", "-t", "archon:latest", "."],
          ["docker", "ps", "-q", "--filter", "name=archon-container"]]
      ++ (if w.psExit = 0 then
            (if pyStrip w.psStdout = "" then []
             else [["docker", "stop", "archon-container"],
                   ["docker", "rm", "archon-container"]])
          else []) := by
  simp only [preRunEvents, execArgvs_append, execArgvs_detectEvents,
    execArgvs_envPhase, execArgvs_buildEvents, execArgvs_staleEvents,
    execArgvs_ite]
  simp [execArgvs, checkOkEvents]

theorem isRunArgv_runCmdArgs (d : String) (e : List String) :
    isRunArgv (runCmdArgs d e) = true := by
  simp [isRunArgv, runCmdArgs]

theorem isBuildArgv_runCmdArgs (d : String) (e : List String) :
    isBuildArgv (runCmdArgs d e) = false := by
  simp [isBuildArgv, runCmdArgs]

theorem isStopArgv_runCmdArgs (d : String) (e : List String) :
    isStopArgv (runCmdArgs d e) = false := by
  simp [isStopArgv, runCmdArgs]

theorem isRmArgv_runCmdArgs (d : String) (e : List String) :
    isRmArgv (runCmdArgs d e) = false := by
  simp [isRmArgv, runCmdArgs]

theorem preRun_no_run (w : World) (a : List String) (c : Option String)
    (h : Event.exec a c ∈ preRunEvents w) : isRunArgv a = false := by
  have ha := mem_execArgvs_of_exec _ a c h
  rw [execArgvs_preRun] at ha
  split_ifs at ha <;> fin_cases ha <;> rfl

theorem tail_no_exec (w : World) (a : List String) (c : Option String) :
    Event.exec a c ∉ tailEvents w := by
  unfold tailEvents postRunEvents
  split_ifs <;> simp

theorem runExec_mem (w : World) (hE : EngineOk w) (hP : PortsFree w)
    (hB : BuildsOk w) :
    Event.exec (runCmdArgs (detectEnv w) (envArgs w)) none ∈ (main w).2 := by
  rw [main_normal w hE hP hB]
  simp [runEvents, run_command]

theorem run_unique (w : World) (hE : EngineOk w) (hP : PortsFree w)
    (hB : BuildsOk w) (a : List String) (c : Option String)
    (h : Event.exec a c ∈ (main w).2) (hr : isRunArgv a = true) :
    a = runCmdArgs (detectEnv w) (envArgs w) := by
  rw [main_normal w hE hP hB] at h
  simp only [List.append_assoc, List.mem_append] at h
  rcases h with h | h | h
  · rw [preRun_no_run w a c h] at hr
    cases hr
  · simp [runEvents, run_command] at h
    exact h.1
  · exact absurd h (tail_no_exec w a c)

theorem execArgvs_main_normal (w : World) (hE : EngineOk w) (hP : PortsFree w)
    (hB : BuildsOk w) :
    execArgvs (main w).2
      = execArgvs (preRunEvents w) ++ [runCmdArgs (detectEnv w) (envArgs w)] := by
  rw [main_normal w hE hP hB]
  simp [execArgvs_append, execArgvs_runEvents, execArgvs_tailEvents]

theorem argPairIn_addHost_none (d : String) :
    argPairIn "--add-host" "host.docker.internal:host-gateway" (runCmdArgs d [])
      = true ↔ d = "docker-desktop" := by
  by_cases hd : d = "docker-desktop" <;> simp [runCmdArgs, hd, argPairIn]

theorem argPairIn_addHost_env (d p : String) :
    argPairIn "--add-host" "host.docker.internal:host-gateway"
      (runCmdArgs d ["--env-file", p]) = true ↔ d = "docker-desktop" := by
  by_cases hd : d = "docker-desktop" <;> simp [runCmdArgs, hd, argPairIn]

theorem argPairIn_addHost (w : World) (d : String) :
    argPairIn "--add-host" "host.docker.internal:host-gateway"
      (runCmdArgs d (envArgs w)) = true ↔ d = "docker-desktop" := by
  unfold envArgs
  split_ifs
  · exact argPairIn_addHost_env d w.envFilePath
  · exact argPairIn_addHost_none d

theorem argPairIn_envfile (d p : String) :
    argPairIn "--env-file" p (runCmdArgs d ["--env-file", p]) = true := by
  by_cases hd : d = "docker-desktop" <;> simp [runCmdArgs, hd, argPairIn]

theorem envfile_not_mem (d : String) : "--env-file" ∉ runCmdArgs d [] := by
  by_cases hd : d = "docker-desktop" <;> simp [runCmdArgs, hd]

theorem envfile_mem (d p : String) :
    "--env-file" ∈ runCmdArgs d ["--env-file", p] := by
  by_cases hd : d = "docker-desktop" <;> simp [runCmdArgs, hd]

theorem detectEnv_std (w : World) (h : w.isWindows = false) :
    detectEnv w = "standard" := by
  simp [detectEnv, detect_windows_docker_environment, h]

theorem detectEnv_wsl (w : World) (hw : w.isWindows = true)
    (hb : w.dockerBinaryPresent = true) (he : w.infoDetectExit = 0)
    (hs : strContains (pyLower w.infoDetectStdout) "wsl" = true) :
    detectEnv w = "docker-desktop" := by
  simp [detectEnv, detect_windows_docker_environment, hw, hb, he, hs]

theorem srr_preRun (w : World) :
    (execArgvs (preRunEvents w)).filter
        (fun a => isStopArgv a || isRmArgv a || isRunArgv a)
      = (if w.psExit = 0 then
           (if pyStrip w.psStdout = "" then []
            else [["docker", "stop", "archon-container"],
                  ["docker", "rm", "archon-container"]])
         else []) := by
  rw [execArgvs_preRun]
  split_ifs <;> rfl

theorem countBuild_preRun (w : World) :
    (execArgvs (preRunEvents w)).countP isBuildArgv = 2 := by
  rw [execArgvs_preRun]
  split_ifs <;> rfl

theorem countSR_preRun (w : World) :
    (execArgvs (preRunEvents w)).countP (fun a => isStopArgv a || isRmArgv a)
      = if w.psExit = 0 then (if pyStrip w.psStdout = "" then 0 else 2) else 0 := by
  rw [execArgvs_preRun]
  split_ifs <;> rfl

theorem countRun_preRun (w : World) :
    (execArgvs (preRunEvents w)).countP isRunArgv = 0 := by
  rw [execArgvs_preRun]
  split_ifs <;> rfl

theorem filterRun_preRun (w : World) :
    (execArgvs (preRunEvents w)).filter isRunArgv = [] := by
  rw [execArgvs_preRun]
  split_ifs <;> rfl

/-- C1 counterexample: a world satisfying every premise of claim C1 as
stated (engine up, daemon reachable, both ports free, no `.env`, both
builds exit 0) in which the claimed conclusion fails: the container-list
query reports a stale `archon-container` (so stop/remove invocations do
happen) and the `docker run` exits non-zero (so the script returns 1). -/
theorem C1_counterexample : C1Hyp wStaleRunFail ∧ ¬ C1Spec wStaleRunFail := by
  unfold C1Hyp C1Spec EngineOk PortsFree BuildsOk
  decide

/-- C1 (amended): if additionally the container-list query reports no
running `archon-container` (it fails or prints only whitespace) and the
`docker run` exits 0, then the script performs exactly two build
invocations, zero stop/remove invocations, one run invocation with no
environment-file argument, and returns exit code 0. -/
theorem C1_amended_normal_flow (w : World) (hE : EngineOk w) (hP : PortsFree w)
    (hEnv : w.envEntry = none) (hB : BuildsOk w)
    (hPs : w.psExit ≠ 0 ∨ pyStrip w.psStdout = "") (hR : w.runExit = 0) :
    C1Spec w := by
  have hex := execArgvs_main_normal w hE hP hB
  have hm := main_normal w hE hP hB
  have henv : envArgs w = [] := by simp [envArgs, envExists, hEnv]
  refine ⟨?_, ?_, ?_, ?_, ?_⟩
  · rw [hm]
    simp [hR]
  · rw [hex]
    simp [List.countP_append, countBuild_preRun, List.countP_cons,
      isBuildArgv_runCmdArgs]
  · rw [hex]
    rcases hPs with h | h <;>
      simp [List.countP_append, countSR_preRun, h, List.countP_cons,
        isStopArgv_runCmdArgs, isRmArgv_runCmdArgs]
  · rw [hex]
    simp [List.countP_append, countRun_preRun, List.countP_cons,
      isRunArgv_runCmdArgs]
  · rw [hex, List.filter_append, filterRun_preRun]
    simp only [List.nil_append, henv]
    intro a ha
    simp [List.filter, isRunArgv_runCmdArgs] at ha
    rw [ha]
    exact envfile_not_mem (detectEnv w)

/-- C1 witness: the amended claim holds at the clean world `wOk`. -/
theorem C1_amended_witness :
    C1Hyp wOk ∧ (wOk.psExit ≠ 0 ∨ pyStrip wOk.psStdout = "")
      ∧ wOk.runExit = 0 ∧ C1Spec wOk := by
  refine ⟨⟨⟨rfl, rfl, rfl⟩, ⟨rfl, rfl⟩, rfl, ⟨rfl, rfl⟩⟩,
    Or.inr (by decide), rfl, ?_⟩
  exact C1_amended_normal_flow wOk ⟨rfl, rfl, rfl⟩ ⟨rfl, rfl⟩ rfl ⟨rfl, rfl⟩
    (Or.inr (by decide)) rfl

/-- C2: with the engine available, if any required port has a listener,
the script exits 1, issues no build and no run invocation, and prints an
error message listing exactly the occupied required ports (in the order
of `required_ports`). -/
theorem C2_port_conflict (w : World) (hE : EngineOk w)
    (hOcc : w.portOccupied 8501 = true ∨ w.portOccupied 8100 = true) :
    (main w).1 = 1
    ∧ (execArgvs (main w).2).countP isBuildArgv = 0
    ∧ (execArgvs (main w).2).countP isRunArgv = 0
    ∧ Event.print ("Error: The following ports are already in use: "
        ++ pyListRepr (required_ports.filter (fun p => w.portOccupied p)))
        ∈ (main w).2
    ∧ ∀ p, p ∈ required_ports.filter (fun p => w.portOccupied p)
        ↔ (p ∈ required_ports ∧ w.portOccupied p = true) := by
  have hc := check_docker_ok w hE
  have hd := detect_snd w
  have hfil : List.filter (fun port => !is_port_available w port) required_ports
      = required_ports.filter (fun p => w.portOccupied p) := by
    simp [is_port_available]
  have hne : required_ports.filter (fun p => w.portOccupied p) ≠ [] := by
    rcases hOcc with h | h
    · simp [required_ports, List.filter, h]
    · by_cases h45 : w.portOccupied 8501 <;>
        simp [required_ports, List.filter, h, h45]
  have hm : main w = (1, checkOkEvents ++ detectEvents w
      ++ [Event.print ("Detected Docker environment: " ++ detectEnv w)]
      ++ [Event.print ("Error: The following ports are already in use: "
            ++ pyListRepr (required_ports.filter (fun p => w.portOccupied p))),
          Event.print "Please stop the services using these ports or modify the port mappings."]) := by
    simp [main, main_after_detect, hc, hd, detectEnv, hfil, hne]
  rw [hm]
  refine ⟨rfl, ?_, ?_, ?_, ?_⟩
  · rcases hw : w.isWindows <;>
      (simp only [execArgvs_append, execArgvs_detectEvents, hw]
       simp [execArgvs, checkOkEvents, List.countP_cons, isBuildArgv])
  · rcases hw : w.isWindows <;>
      (simp only [execArgvs_append, execArgvs_detectEvents, hw]
       simp [execArgvs, checkOkEvents, List.countP_cons, isRunArgv])
  · simp
  · intro p
    simp [List.mem_filter]

/-- C2 witness: at `wPortBusy` (port 8100 occupied) the script exits 1,
builds nothing, runs nothing, and reports exactly port 8100. -/
theorem C2_witness :
    EngineOk wPortBusy
    ∧ (wPortBusy.portOccupied 8501 = true ∨ wPortBusy.portOccupied 8100 = true)
    ∧ (main wPortBusy).1 = 1
    ∧ (execArgvs (main wPortBusy).2).countP isBuildArgv = 0
    ∧ (execArgvs (main wPortBusy).2).countP isRunArgv = 0
    ∧ Event.print ("Error: The following ports are already in use: "
        ++ pyListRepr (required_ports.filter (fun p => wPortBusy.portOccupied p)))
        ∈ (main wPortBusy).2 := by
  have h := C2_port_conflict wPortBusy ⟨rfl, rfl, rfl⟩ (Or.inr (by decide))
  exact ⟨⟨rfl, rfl, rfl⟩, Or.inr (by decide), h.1, h.2.1, h.2.2.1, h.2.2.2.1⟩

/-- C3: if the docker binary is absent, or either availability probe
exits non-zero (daemon unreachable), the script exits 1 and attempts no
build, stop, remove, or run invocation. -/
theorem C3_engine_unavailable (w : World)
    (h : w.dockerBinaryPresent = false ∨ w.versionExit ≠ 0 ∨ w.infoCheckExit ≠ 0) :
    (main w).1 = 1
    ∧ (execArgvs (main w).2).countP
        (fun a => isBuildArgv a || isStopArgv a || isRmArgv a || isRunArgv a)
        = 0 := by
  rcases h with h | h | h
  · have hm : main w = (1, [Event.exec ["docker", "--version"] none,
        Event.print "Error: Docker is not installed or not in PATH"]) := by
      simp [main, check_docker, h]
    rw [hm]
    exact ⟨rfl, by decide⟩
  · by_cases hb : w.dockerBinaryPresent = false
    · have hm : main w = (1, [Event.exec ["docker", "--version"] none,
          Event.print "Error: Docker is not installed or not in PATH"]) := by
        simp [main, check_docker, hb]
      rw [hm]
      exact ⟨rfl, by decide⟩
    · have hm : main w = (1, [Event.exec ["docker", "--version"] none,
          Event.print "Error: Docker is not running. Please start Docker Desktop or Docker service."]) := by
        simp [main, check_docker, hb, h]
      rw [hm]
      exact ⟨rfl, by decide⟩
  · by_cases hb : w.dockerBinaryPresent = false
    · have hm : main w = (1, [Event.exec ["docker", "--version"] none,
          Event.print "Error: Docker is not installed or not in PATH"]) := by
        simp [main, check_docker, hb]
      rw [hm]
      exact ⟨rfl, by decide⟩
    · by_cases hv : w.versionExit = 0
      · have hm : main w = (1, [Event.exec ["docker", "--version"] none,
            Event.exec ["docker", "info"] none,
            Event.print "Error: Docker is not running. Please start Docker Desktop or Docker service."]) := by
          simp [main, check_docker, hb, hv, h]
        rw [hm]
        exact ⟨rfl, by decide⟩
      · have hm : main w = (1, [Event.exec ["docker", "--version"] none,
            Event.print "Error: Docker is not running. Please start Docker Desktop or Docker service."]) := by
          simp [main, check_docker, hb, hv]
        rw [hm]
        exact ⟨rfl, by decide⟩

/-- C3 witness: at `wNoEngine` (binary absent) the script exits 1 with
no build/stop/remove/run invocation. -/
theorem C3_witness :
    wNoEngine.dockerBinaryPresent = false
    ∧ (main wNoEngine).1 = 1
    ∧ (execArgvs (main wNoEngine).2).countP
        (fun a => isBuildArgv a || isStopArgv a || isRmArgv a || isRunArgv a)
        = 0 := by
  have h := C3_engine_unavailable wNoEngine (Or.inl rfl)
  exact ⟨rfl, h.1, h.2⟩

/-- C4: environment detection returns "standard" on every non-Windows
platform; on Windows it returns "docker-desktop" when the (lowercased)
daemon-info text contains "wsl" or "microsoft", "docker-toolbox" when it
instead contains "virtualbox" or "docker machine", "docker-desktop" when
neither substring set matches, and "docker-desktop" when the daemon-info
query itself fails (binary missing or non-zero exit). -/
theorem C4_environment_detection (w : World) :
    (w.isWindows = false → detectEnv w = "standard")
    ∧ (w.isWindows = true → w.dockerBinaryPresent = true → w.infoDetectExit = 0 →
        (((strContains (pyLower w.infoDetectStdout) "wsl"
            || strContains (pyLower w.infoDetectStdout) "microsoft") = true →
          detectEnv w = "docker-desktop")
        ∧ ((strContains (pyLower w.infoDetectStdout) "wsl"
            || strContains (pyLower w.infoDetectStdout) "microsoft") = false →
          ((strContains (pyLower w.infoDetectStdout) "virtualbox"
              || strContains (pyLower w.infoDetectStdout) "docker machine") = true →
            detectEnv w = "docker-toolbox")
          ∧ ((strContains (pyLower w.infoDetectStdout) "virtualbox"
              || strContains (pyLower w.infoDetectStdout) "docker machine") = false →
            detectEnv w = "docker-desktop"))))
    ∧ (w.isWindows = true → (w.dockerBinaryPresent = false ∨ w.infoDetectExit ≠ 0) →
        detectEnv w = "docker-desktop") := by
  refine ⟨detectEnv_std w, ?_, ?_⟩
  · intro hw hb he
    constructor
    · intro hs
      simp [detectEnv, detect_windows_docker_environment, hw, hb, he, hs]
    · intro hs
      constructor
      · intro ht
        simp [detectEnv, detect_windows_docker_environment, hw, hb, he, hs, ht]
      · intro ht
        simp [detectEnv, detect_windows_docker_environment, hw, hb, he, hs, ht]
  · intro hw hfail
    rcases hfail with hb | hb
    · simp [detectEnv, detect_windows_docker_environment, hw, hb]
    · by_cases hbp : w.dockerBinaryPresent = false <;>
        simp [detectEnv, detect_windows_docker_environment, hw, hb, hbp]

/-- C4 witness: the four detection scenarios at concrete worlds. -/
theorem C4_witness :
    detectEnv wOk = "standard" ∧ detectEnv wWinWsl = "docker-desktop"
    ∧ detectEnv wWinVbox = "docker-toolbox"
    ∧ detectEnv wWinFail = "docker-desktop" := by
  refine ⟨(C4_environment_detection wOk).1 rfl, ?_, ?_, ?_⟩
  · exact ((C4_environment_detection wWinWsl).2.1 rfl rfl rfl).1 (by decide)
  · exact (((C4_environment_detection wWinVbox).2.1 rfl rfl rfl).2
      (by decide)).1 (by decide)
  · exact (C4_environment_detection wWinFail).2.2 rfl (Or.inr (by decide))

/-- C5: on a run that reaches the `docker run` step, the (unique) run
invocation carries the `--add-host host.docker.internal:host-gateway`
flag iff the detected environment is docker-desktop; on non-Windows
platforms it never carries the flag; on Windows with daemon info
mentioning "wsl" it does. -/
theorem C5_host_gateway (w : World) (hE : EngineOk w) (hP : PortsFree w)
    (hB : BuildsOk w) :
    ∃ a, Event.exec a none ∈ (main w).2 ∧ isRunArgv a = true
      ∧ (argPairIn "--add-host" "host.docker.internal:host-gateway" a = true
          ↔ detectEnv w = "docker-desktop")
      ∧ (w.isWindows = false →
          argPairIn "--add-host" "host.docker.internal:host-gateway" a = false)
      ∧ (w.isWindows = true → w.infoDetectExit = 0 →
          strContains (pyLower w.infoDetectStdout) "wsl" = true →
          argPairIn "--add-host" "host.docker.internal:host-gateway" a = true)
      ∧ ∀ b c, Event.exec b c ∈ (main w).2 → isRunArgv b = true → b = a := by
  refine ⟨runCmdArgs (detectEnv w) (envArgs w), runExec_mem w hE hP hB,
    isRunArgv_runCmdArgs _ _, argPairIn_addHost w (detectEnv w), ?_, ?_,
    fun b c hb hrb => run_unique w hE hP hB b c hb hrb⟩
  · intro hw
    have h1 := detectEnv_std w hw
    have h2 := argPairIn_addHost w (detectEnv w)
    rw [h1] at h2 ⊢
    rcases hval : argPairIn "--add-host" "host.docker.internal:host-gateway"
        (runCmdArgs "standard" (envArgs w))
    · rfl
    · exact absurd (h2.mp hval) (by decide)
  · intro hw he hs
    exact (argPairIn_addHost w (detectEnv w)).mpr (detectEnv_wsl w hw hE.1 he hs)

/-- C5 witness: at `wWinWsl` (Windows, daemon info mentioning WSL) the
run invocation carries the host-gateway alias flag. -/
theorem C5_witness :
    EngineOk wWinWsl ∧ PortsFree wWinWsl ∧ BuildsOk wWinWsl
    ∧ ∃ a, Event.exec a none ∈ (main wWinWsl).2 ∧ isRunArgv a = true
        ∧ argPairIn "--add-host" "host.docker.internal:host-gateway" a = true := by
  obtain ⟨a, hmem, hrun, _, _, hwsl, _⟩ :=
    C5_host_gateway wWinWsl ⟨rfl, rfl, rfl⟩ ⟨rfl, rfl⟩ ⟨rfl, rfl⟩
  exact ⟨⟨rfl, rfl, rfl⟩, ⟨rfl, rfl⟩, ⟨rfl, rfl⟩,
    a, hmem, hrun, hwsl rfl rfl (by decide)⟩

/-- C6: on a run that reaches the `docker run` step, the (unique) run
invocation contains an `--env-file` argument iff the `.env` entry exists
beside the script, and when it exists the argument points at
`str(base_dir / ".env")`; when absent the run invocation still happens
without it. -/
theorem C6_env_file (w : World) (hE : EngineOk w) (hP : PortsFree w)
    (hB : BuildsOk w) :
    ∃ a, Event.exec a none ∈ (main w).2 ∧ isRunArgv a = true
      ∧ ("--env-file" ∈ a ↔ envExists w = true)
      ∧ (envExists w = true → argPairIn "--env-file" w.envFilePath a = true)
      ∧ ∀ b c, Event.exec b c ∈ (main w).2 → isRunArgv b = true → b = a := by
  refine ⟨runCmdArgs (detectEnv w) (envArgs w), runExec_mem w hE hP hB,
    isRunArgv_runCmdArgs _ _, ?_, ?_,
    fun b c hb hrb => run_unique w hE hP hB b c hb hrb⟩
  · rcases hev : envExists w
    · have henv : envArgs w = [] := by simp [envArgs, hev]
      rw [henv]
      simp only [hev, Bool.false_eq_true, iff_false]
      exact envfile_not_mem (detectEnv w)
    · have henv : envArgs w = ["--env-file", w.envFilePath] := by
        simp [envArgs, hev]
      rw [henv]
      simp only [hev, iff_true]
      exact envfile_mem (detectEnv w) w.envFilePath
  · intro hev
    have henv : envArgs w = ["--env-file", w.envFilePath] := by
      simp [envArgs, hev]
    rw [henv]
    exact argPairIn_envfile (detectEnv w) w.envFilePath

/-- C6 witness: at `wDirEnv` (a `.env` entry exists) the run invocation
carries `--env-file` pointing at the `.env` path. -/
theorem C6_witness :
    EngineOk wDirEnv ∧ PortsFree wDirEnv ∧ BuildsOk wDirEnv
    ∧ ∃ a, Event.exec a none ∈ (main wDirEnv).2 ∧ isRunArgv a = true
        ∧ "--env-file" ∈ a
        ∧ argPairIn "--env-file" wDirEnv.envFilePath a = true := by
  obtain ⟨a, hmem, hrun, hiff, hpair, _⟩ :=
    C6_env_file wDirEnv ⟨rfl, rfl, rfl⟩ ⟨rfl, rfl⟩ ⟨rfl, rfl⟩
  exact ⟨⟨rfl, rfl, rfl⟩, ⟨rfl, rfl⟩, ⟨rfl, rfl⟩,
    a, hmem, hrun, hiff.mpr rfl, hpair rfl⟩

/-- C7: on a run that reaches the replace-instance step, if the
container-list query succeeds with non-empty (stripped) output, the
stop/remove/run invocations are exactly stop, then remove, then the run;
if it succeeds with empty output there is no stop/remove, only the run;
and if the query fails (non-zero exit) the failure is swallowed and the
run still happens with no stop/remove. -/
theorem C7_stale_replace (w : World) (hE : EngineOk w) (hP : PortsFree w)
    (hB : BuildsOk w) :
    ((w.psExit = 0 ∧ pyStrip w.psStdout ≠ "") →
       ∃ r, srrArgvs (main w).2
            = [["docker", "stop", "archon-container"],
               ["docker", "rm", "archon-container"], r] ∧ isRunArgv r = true)
    ∧ ((w.psExit = 0 ∧ pyStrip w.psStdout = "") →
       ∃ r, srrArgvs (main w).2 = [r] ∧ isRunArgv r = true)
    ∧ (w.psExit ≠ 0 →
       ∃ r, srrArgvs (main w).2 = [r] ∧ isRunArgv r = true) := by
  have hsrr : srrArgvs (main w).2
      = ((execArgvs (preRunEvents w)).filter
            (fun a => isStopArgv a || isRmArgv a || isRunArgv a))
        ++ [runCmdArgs (detectEnv w) (envArgs w)] := by
    unfold srrArgvs
    rw [execArgvs_main_normal w hE hP hB, List.filter_append]
    congr 1
  refine ⟨?_, ?_, ?_⟩
  · rintro ⟨h1, h2⟩
    exact ⟨runCmdArgs (detectEnv w) (envArgs w),
      by rw [hsrr, srr_preRun]; simp [h1, h2], isRunArgv_runCmdArgs _ _⟩
  · rintro ⟨h1, h2⟩
    exact ⟨runCmdArgs (detectEnv w) (envArgs w),
      by rw [hsrr, srr_preRun]; simp [h1, h2], isRunArgv_runCmdArgs _ _⟩
  · intro h1
    exact ⟨runCmdArgs (detectEnv w) (envArgs w),
      by rw [hsrr, srr_preRun]; simp [h1], isRunArgv_runCmdArgs _ _⟩

/-- C7 witness: at `wStaleRunFail` (stale container reported) the
stop/remove/run sequence is stop, remove, run. -/
theorem C7_witness :
    (wStaleRunFail.psExit = 0 ∧ pyStrip wStaleRunFail.psStdout ≠ "")
    ∧ ∃ r, srrArgvs (main wStaleRunFail).2
        = [["docker", "stop", "archon-container"],
           ["docker", "rm", "archon-container"], r] ∧ isRunArgv r = true := by
  obtain ⟨h1, _, _⟩ :=
    C7_stale_replace wStaleRunFail ⟨rfl, rfl, rfl⟩ ⟨rfl, rfl⟩ ⟨rfl, rfl⟩
  exact ⟨⟨rfl, by decide⟩, h1 ⟨rfl, by decide⟩⟩

/-- C10: `.env` discovery tests only existence: if the entry beside the
script is a directory, the run invocation still receives the
`--env-file` argument pointing at that path. -/
theorem C10_env_dir (w : World) (hE : EngineOk w) (hP : PortsFree w)
    (hB : BuildsOk w) (hD : w.envEntry = some FsType.dir) :
    ∃ a, Event.exec a none ∈ (main w).2 ∧ isRunArgv a = true
      ∧ argPairIn "--env-file" w.envFilePath a = true := by
  have hev : envExists w = true := by simp [envExists, hD]
  have henv : envArgs w = ["--env-file", w.envFilePath] := by
    simp [envArgs, hev]
  refine ⟨runCmdArgs (detectEnv w) (envArgs w), runExec_mem w hE hP hB,
    isRunArgv_runCmdArgs _ _, ?_⟩
  rw [henv]
  exact argPairIn_envfile (detectEnv w) w.envFilePath

/-- C10 witness: at `wDirEnv`, whose `.env` entry is a directory, the
run invocation carries the `--env-file` argument. -/
theorem C10_witness :
    wDirEnv.envEntry = some FsType.dir
    ∧ ∃ a, Event.exec a none ∈ (main wDirEnv).2 ∧ isRunArgv a = true
        ∧ argPairIn "--env-file" wDirEnv.envFilePath a = true :=
  ⟨rfl, C10_env_dir wDirEnv ⟨rfl, rfl, rfl⟩ ⟨rfl, rfl⟩ ⟨rfl, rfl⟩ rfl⟩

/-- C8: in every world the script terminates with exit code 0, or with
exit code 1 having printed one of its error messages — every failure
mode (engine unavailable, port conflict, build failure, run failure)
funnels into a printed message and a non-zero return, never an escaping
exception. -/
theorem C8_no_exception_escape (w : World) :
    (main w).1 = 0
    ∨ ((main w).1 = 1 ∧ ∃ m ∈ errorMessages w, Event.print m ∈ (main w).2) := by
  by_cases hb : w.dockerBinaryPresent = false
  · exact Or.inr ⟨by simp [main, check_docker, hb],
      "Error: Docker is not installed or not in PATH",
      by simp [errorMessages], by simp [main, check_docker, hb]⟩
  · by_cases hv : w.versionExit = 0
    case neg =>
      exact Or.inr ⟨by simp [main, check_docker, hb, hv],
        "Error: Docker is not running. Please start Docker Desktop or Docker service.",
        by simp [errorMessages], by simp [main, check_docker, hb, hv]⟩
    case pos =>
      by_cases hi : w.infoCheckExit = 0
      case neg =>
        exact Or.inr ⟨by simp [main, check_docker, hb, hv, hi],
          "Error: Docker is not running. Please start Docker Desktop or Docker service.",
          by simp [errorMessages], by simp [main, check_docker, hb, hv, hi]⟩
      case pos =>
        simp only [Bool.not_eq_false] at hb
        have hcheck := check_docker_ok w ⟨hb, hv, hi⟩
        have hd := detect_snd w
        by_cases hports :
            List.filter (fun port => !(is_port_available w port)) required_ports = []
        case neg =>
          exact Or.inr ⟨by simp [main, main_after_detect, hcheck, hports],
            "Error: The following ports are already in use: "
              ++ pyListRepr (List.filter (fun port => !(is_port_available w port))
                    required_ports),
            by simp [errorMessages],
            by simp [main, main_after_detect, hcheck, hports]⟩
        case pos =>
          by_cases hb1 : w.buildMcpExit = 0
          case neg =>
            exact Or.inr ⟨by simp [main, main_after_detect, hcheck, hports, hb1,
                run_command],
              "Error building MCP container", by simp [errorMessages],
              by simp [main, main_after_detect, hcheck, hports, hb1, run_command]⟩
          case pos =>
            by_cases hb2 : w.buildMainExit = 0
            case neg =>
              exact Or.inr ⟨by simp [main, main_after_detect, hcheck, hports,
                  hb1, hb2, run_command],
                "Error building main Archon container", by simp [errorMessages],
                by simp [main, main_after_detect, hcheck, hports, hb1, hb2,
                  run_command]⟩
            case pos =>
              by_cases hr : w.runExit = 0
              case pos =>
                exact Or.inl (by simp [main, main_after_detect, hcheck, hports,
                  hb1, hb2, hr, run_command])
              case neg =>
                exact Or.inr ⟨by simp [main, main_after_detect, hcheck, hports,
                    hb1, hb2, hr, run_command],
                  "Error starting Archon container", by simp [errorMessages],
                  by simp [main, main_after_detect, hcheck, hports, hb1, hb2,
                    hr, run_command]⟩

theorem execArgvs_nil : execArgvs [] = [] := rfl

theorem execArgvs_print_cons (m : String) (t : List Event) :
    execArgvs (Event.print m :: t) = execArgvs t := by
  simp [execArgvs]

theorem execArgvs_exec_cons (a : List String) (c : Option String)
    (t : List Event) :
    execArgvs (Event.exec a c :: t) = a :: execArgvs t := by
  simp [execArgvs]

theorem listFilter_ite {α : Type} (p : α → Bool) (c : Prop) [Decidable c]
    (a b : List α) :
    List.filter p (if c then a else b)
      = if c then List.filter p a else List.filter p b :=
  apply_ite (List.filter p) c a b

theorem listMap_ite {α β : Type} (f : α → β) (c : Prop) [Decidable c]
    (a b : List α) :
    List.map f (if c then a else b)
      = if c then List.map f a else List.map f b :=
  apply_ite (List.map f) c a b

theorem argv_pred_vals :
    (isBuildArgv ["docker", "--version"] = false)
    ∧ (isStopArgv ["docker", "--version"] = false)
    ∧ (isRmArgv ["docker", "--version"] = false)
    ∧ (isRunArgv ["docker", "--version"] = false)
    ∧ (isBuildArgv ["docker", "info"] = false)
    ∧ (isStopArgv ["docker", "info"] = false)
    ∧ (isRmArgv ["docker", "info"] = false)
    ∧ (isRunArgv ["docker", "info"] = false)
    ∧ (isBuildArgv ["docker", "build", "-t", "archon-mcp:latest", "."] = true)
    ∧ (isStopArgv ["docker", "build", "-t", "archon-mcp:latest", "."] = false)
    ∧ (isRmArgv ["docker", "build", "-t", "archon-mcp:latest", "."] = false)
    ∧ (isRunArgv ["docker", "build", "-t", "archon-mcp:latest", "."] = false)
    ∧ (isBuildArgv ["docker", "build", "-t", "archon:latest", "."] = true)
    ∧ (isStopArgv ["docker", "build", "-t", "archon:latest", "."] = false)
    ∧ (isRmArgv ["docker", "build", "-t", "archon:latest", "."] = false)
    ∧ (isRunArgv ["docker", "build", "-t", "archon:latest", "."] = false)
    ∧ (isBuildArgv ["docker", "ps", "-q", "--filter", "name=archon-container"] = false)
    ∧ (isStopArgv ["docker", "ps", "-q", "--filter", "name=archon-container"] = false)
    ∧ (isRmArgv ["docker", "ps", "-q", "--filter", "name=archon-container"] = false)
    ∧ (isRunArgv ["docker", "ps", "-q", "--filter", "name=archon-container"] = false)
    ∧ (isBuildArgv ["docker", "stop", "archon-container"] = false)
    ∧ (isStopArgv ["docker", "stop", "archon-container"] = true)
    ∧ (isRmArgv ["docker", "stop", "archon-container"] = false)
    ∧ (isRunArgv ["docker", "stop", "archon-container"] = false)
    ∧ (isBuildArgv ["docker", "rm", "archon-container"] = false)
    ∧ (isStopArgv ["docker", "rm", "archon-container"] = false)
    ∧ (isRmArgv ["docker", "rm", "archon-container"] = true)
    ∧ (isRunArgv ["docker", "rm", "archon-container"] = false) := by
  decide

theorem strip_vals :
    (stripAddHost ["docker", "build", "-t", "archon-mcp:latest", "."]
      = ["docker", "build", "-t", "archon-mcp:latest", "."])
    ∧ (stripAddHost ["docker", "build", "-t", "archon:latest", "."]
      = ["docker", "build", "-t", "archon:latest", "."])
    ∧ (stripAddHost ["docker", "stop", "archon-container"]
      = ["docker", "stop", "archon-container"])
    ∧ (stripAddHost ["docker", "rm", "archon-container"]
      = ["docker", "rm", "archon-container"]) := by
  decide

theorem stripAddHost_runCmdArgs (d : String) (e : List String) :
    stripAddHost (runCmdArgs d e)
      = ["docker", "run", "-d", "--name", "archon-container",
         "-p", "8501:8501", "-p", "8100:8100"]
        ++ stripAddHost e ++ ["archon:latest"] := by
  by_cases hd : d = "docker-desktop" <;>
    simp [runCmdArgs, stripAddHost, hd, List.filter_append]

theorem check_docker_nondetect (w1 w2 : World) (h : NonDetectEq w1 w2) :
    check_docker w1 = check_docker w2 := by
  obtain ⟨h1, h2, h3, -⟩ := h
  simp only [check_docker, h1, h2, h3]

theorem mad_nondetect (w1 w2 : World) (h : NonDetectEq w1 w2) (d : String) :
    main_after_detect w1 d = main_after_detect w2 d := by
  obtain ⟨-, -, -, h4, h5, h6, h7, h8, h9, h10, h11, h12, h13, h14, h15⟩ := h
  simp only [main_after_detect, staleEvents, run_command, envArgs, envExists,
    is_port_available, h4, h5, h6, h7, h8, h9, h10, h11, h12, h13, h14, h15]

theorem mad_fst_env_irrel (w : World) (d1 d2 : String) :
    (main_after_detect w d1).1 = (main_after_detect w d2).1 := by
  simp only [main_after_detect, run_command]
  split_ifs <;> rfl

theorem check_docker_true (w : World) (h : ¬ (check_docker w).1 = false) :
    check_docker w = (true, checkOkEvents) := by
  unfold check_docker at h ⊢
  split_ifs at h ⊢ <;> simp_all [checkOkEvents]

theorem coreArgvs_append (s t : List Event) :
    coreArgvs (s ++ t) = coreArgvs s ++ coreArgvs t := by
  simp [coreArgvs, execArgvs_append, List.filter_append]

theorem bsrArgvs_append (s t : List Event) :
    bsrArgvs (s ++ t) = bsrArgvs s ++ bsrArgvs t := by
  simp [bsrArgvs, execArgvs_append, List.filter_append]

theorem coreArgvs_check : coreArgvs checkOkEvents = [] := by decide

theorem bsrArgvs_check : bsrArgvs checkOkEvents = [] := by decide

theorem coreArgvs_detect (w : World) :
    coreArgvs (detect_windows_docker_environment w).2 = [] := by
  rw [detect_snd]
  unfold detectEvents
  split_ifs <;> rfl

theorem bsrArgvs_detect (w : World) :
    bsrArgvs (detect_windows_docker_environment w).2 = [] := by
  rw [detect_snd]
  unfold detectEvents
  split_ifs <;> rfl

theorem execArgvs_postRun (d : String) : execArgvs (postRunEvents d) = [] := by
  unfold postRunEvents
  split_ifs <;> rfl

theorem coreArgvs_mad_irrel (w : World) (d1 d2 : String) :
    coreArgvs (main_after_detect w d1).2
      = coreArgvs (main_after_detect w d2).2 := by
  unfold main_after_detect
  simp only [run_command]
  split_ifs <;>
    simp [coreArgvs, execArgvs_append, execArgvs_ite, execArgvs_print_cons,
      execArgvs_exec_cons, execArgvs_nil, execArgvs_staleEvents,
      execArgvs_postRun, List.filter_append, List.map_append, listFilter_ite,
      listMap_ite, argv_pred_vals, strip_vals, stripAddHost_runCmdArgs,
      isRunArgv_runCmdArgs, isBuildArgv_runCmdArgs, isStopArgv_runCmdArgs,
      isRmArgv_runCmdArgs]

theorem bsrArgvs_mad_irrel (w : World) (d1 d2 : String) :
    bsrArgvs (main_after_detect w d1).2
      = bsrArgvs (main_after_detect w d2).2 := by
  unfold main_after_detect
  simp only [run_command]
  split_ifs <;>
    simp [bsrArgvs, execArgvs_append, execArgvs_ite, execArgvs_print_cons,
      execArgvs_exec_cons, execArgvs_nil, execArgvs_staleEvents,
      execArgvs_postRun, List.filter_append, listFilter_ite, argv_pred_vals,
      isRunArgv_runCmdArgs, isBuildArgv_runCmdArgs, isStopArgv_runCmdArgs,
      isRmArgv_runCmdArgs]

/-- C9: two worlds that agree on everything except the inputs of
environment detection (platform, detection-probe exit and output)
produce the same exit code, the same build/stop/remove invocation
sequence, and the same build/stop/remove/run sequence once the two
tokens of the host-gateway alias flag are erased from the run
invocation — detection only influences that flag and printed text. -/
theorem C9_detection_noninterference (w1 w2 : World) (h : NonDetectEq w1 w2) :
    (main w1).1 = (main w2).1
    ∧ coreArgvs (main w1).2 = coreArgvs (main w2).2
    ∧ bsrArgvs (main w1).2 = bsrArgvs (main w2).2 := by
  have hc := check_docker_nondetect w1 w2 h
  by_cases hck : (check_docker w2).1 = false
  · have hm1 : main w1 = (1, (check_docker w2).2) := by
      simp [main, hc, hck]
    have hm2 : main w2 = (1, (check_docker w2).2) := by
      simp [main, hck]
    rw [hm1, hm2]
    exact ⟨rfl, rfl, rfl⟩
  · have hco := check_docker_true w2 hck
    have hmad := mad_nondetect w1 w2 h
    have hm1 : main w1 = ((main_after_detect w2 (detectEnv w1)).1,
        checkOkEvents ++ (detect_windows_docker_environment w1).2
          ++ (main_after_detect w2 (detectEnv w1)).2) := by
      simp [main, hc, hco, hmad, detectEnv]
    have hm2 : main w2 = ((main_after_detect w2 (detectEnv w2)).1,
        checkOkEvents ++ (detect_windows_docker_environment w2).2
          ++ (main_after_detect w2 (detectEnv w2)).2) := by
      simp [main, hco, detectEnv]
    rw [hm1, hm2]
    refine ⟨mad_fst_env_irrel w2 _ _, ?_, ?_⟩
    · simp only [coreArgvs_append, coreArgvs_check, coreArgvs_detect]
      simpa using coreArgvs_mad_irrel w2 (detectEnv w1) (detectEnv w2)
    · simp only [bsrArgvs_append, bsrArgvs_check, bsrArgvs_detect]
      simpa using bsrArgvs_mad_irrel w2 (detectEnv w1) (detectEnv w2)

/-- C9 witness: `wOk` (standard) and `wWinWsl` (docker-desktop) agree on
all non-detection inputs and get the same exit code and the same
flag-erased command sequences. -/
theorem C9_witness :
    NonDetectEq wOk wWinWsl
    ∧ (main wOk).1 = (main wWinWsl).1
    ∧ coreArgvs (main wOk).2 = coreArgvs (main wWinWsl).2
    ∧ bsrArgvs (main wOk).2 = bsrArgvs (main wWinWsl).2 := by
  have h : NonDetectEq wOk wWinWsl :=
    ⟨rfl, rfl, rfl, rfl, rfl, rfl, rfl, rfl, rfl, rfl, rfl, rfl, rfl, rfl, rfl⟩
  obtain ⟨a, b, c⟩ := C9_detection_noninterference wOk wWinWsl h
  exact ⟨h, a, b, c⟩

end Archon
